import Mathlib

/-!
# Verification of the ISS-tracker core (src/main.js)

A shallow embedding of the two core pieces of the repository:

* the position feed (`fetchIssPosition`, lines 383-441 of src/main.js):
  polling, payload parsing with JavaScript `parseFloat` semantics,
  validation, and publication of the current `GeoPosition` together with
  the connectivity status, ground marker, and UI side effects;
* the custom render layer (`issCustomLayer`, lines 68-347): the loader
  callbacks that install the primary or fallback model, and the per-frame
  `render` callback that composes the host camera matrix with a
  translation and a sign-flipped scale derived from the projected
  position, following the Three.js `Matrix4` operations used by the code.

JavaScript numbers are modelled as `JSNum`: `NaN`, signed infinity, or an
exact rational.  The source performs no float arithmetic on the parsed
coordinates (they are parsed, compared with `isNaN`, and stored), so exact
rationals are a faithful carrier for every claim below.  Matrix entries
are rationals as well; the matrix claims are algebraic identities that
hold over any commutative ring and do not depend on rounding.
-/

/-- A JavaScript number: `NaN`, `Infinity`/`-Infinity`, or a finite value
(modelled exactly as a rational). -/
inductive JSNum where
  | nan : JSNum
  | inf (neg : Bool) : JSNum
  | fin (q : ℚ) : JSNum
deriving DecidableEq, Repr

/-- JavaScript `isNaN` on an already-converted number: true exactly for
`NaN` (note `isNaN(Infinity) = false`). -/
def JSNum.isNaN : JSNum → Bool
  | .nan => true
  | _ => false

/-- ASCII whitespace skipped by `parseFloat`.  (The full JavaScript set
also has Unicode spaces; the feed payloads are ASCII.) -/
def isJsSpace (c : Char) : Bool :=
  c = ' ' || c = '\t' || c = '\n' || c = '\r' || c = '\x0B' || c = '\x0C'

/-- Value of a list of decimal digit characters. -/
def digitsVal (ds : List Char) : ℕ :=
  ds.foldl (fun a c => 10 * a + (c.toNat - 48)) 0

/-- The characters of the keyword recognised by `parseFloat`. -/
def infinityChars : List Char :=
  ['I', 'n', 'f', 'i', 'n', 'i', 't', 'y']

/-- The pieces of a parsed decimal literal: sign, integer-part value,
fraction-part value, number of fraction digits, and exponent.  The
denoted number is recovered by `DecLit.toRat`. -/
structure DecLit where
  neg : Bool
  ip : ℕ
  fp : ℕ
  flen : ℕ
  exp : ℤ
deriving DecidableEq, Repr

/-- Symbolic result of parsing a numeric-literal prefix: no literal,
signed Infinity, or a decimal literal. -/
inductive ParseResult where
  | nan : ParseResult
  | inf (neg : Bool) : ParseResult
  | lit (d : DecLit) : ParseResult
deriving DecidableEq, Repr

/-- Core of JavaScript `parseFloat` after whitespace removal: parse the
longest prefix of `cs` that is a `StrDecimalLiteral`
(`[+-]? (Infinity | digits [. digits]? | . digits) ([eE][+-]?digits)?`),
returning the literal's pieces and the unconsumed suffix; `nan` (with
nothing consumed) when no prefix is a literal.  A trailing malformed
exponent (as in `"1e"`) is not consumed, matching `parseFloat("1e") = 1`. -/
def parseFloatParts (cs : List Char) : ParseResult × List Char :=
  let signRest : Bool × List Char :=
    match cs with
    | '-' :: r => (true, r)
    | '+' :: r => (false, r)
    | _ => (false, cs)
  let neg := signRest.1
  let cs1 := signRest.2
  if infinityChars.isPrefixOf cs1 then
    (.inf neg, cs1.drop 8)
  else
    let intD := cs1.takeWhile Char.isDigit
    let cs2 := cs1.drop intD.length
    let fracRest : List Char × List Char :=
      match cs2 with
      | '.' :: r => (r.takeWhile Char.isDigit, r.drop (r.takeWhile Char.isDigit).length)
      | _ => ([], cs2)
    let fracD := fracRest.1
    let cs3 := fracRest.2
    if intD.isEmpty && fracD.isEmpty then
      (.nan, cs)
    else
      let expRest : Int × List Char :=
        match cs3 with
        | c :: r =>
          if c = 'e' || c = 'E' then
            let esignRest : Int × List Char :=
              match r with
              | '-' :: rr => (-1, rr)
              | '+' :: rr => (1, rr)
              | _ => (1, r)
            let eD := esignRest.2.takeWhile Char.isDigit
            if eD.isEmpty then (0, cs3)
            else (esignRest.1 * (digitsVal eD : Int), esignRest.2.drop eD.length)
          else (0, cs3)
        | [] => (0, cs3)
      (.lit { neg := neg, ip := digitsVal intD, fp := digitsVal fracD,
              flen := fracD.length, exp := expRest.1 }, expRest.2)

/-- The mathematical value of a decimal literal:
`sign * (intPart + fracPart / 10 ^ fracDigits) * 10 ^ exponent`. -/
def DecLit.toRat (d : DecLit) : ℚ :=
  let mant : ℚ := (d.ip : ℚ) + (d.fp : ℚ) / (10 : ℚ) ^ d.flen
  let v : ℚ := mant * (10 : ℚ) ^ d.exp
  if d.neg then -v else v

/-- The JavaScript number denoted by a parse result. -/
def ParseResult.toJSNum : ParseResult → JSNum
  | .nan => .nan
  | .inf neg => .inf neg
  | .lit d => .fin d.toRat

/-- Value and unconsumed suffix of the `parseFloat` prefix parse. -/
def parseFloatCore (cs : List Char) : JSNum × List Char :=
  ((parseFloatParts cs).1.toJSNum, (parseFloatParts cs).2)

/-- JavaScript `parseFloat` on a string: skip leading whitespace, then
parse the longest numeric-literal prefix. -/
def parseFloatString (s : String) : JSNum :=
  (parseFloatCore (s.data.dropWhile isJsSpace)).1

/-- A JSON value as it can occur in the feed payload fields. -/
inductive JsonValue where
  | num (n : JSNum) : JsonValue
  | str (s : String) : JsonValue
  | null : JsonValue
  | bool (b : Bool) : JsonValue
deriving DecidableEq, Repr

/-- `parseFloat(data.field)` for a JSON field that may be absent
(`none` models the field being `undefined`).  `parseFloat` converts its
argument to a string first: `undefined`, `null` and booleans convert to
non-numeric strings and give `NaN`; a number converts to its shortest
round-tripping decimal form and parses back to the same value. -/
def parseFloatJson : Option JsonValue → JSNum
  | none => .nan
  | some (.num n) => n
  | some (.str s) => parseFloatString s
  | some .null => .nan
  | some (.bool _) => .nan

/-- The published position object `{ lng, lat }` (src/main.js line 389). -/
structure GeoPosition where
  lng : JSNum
  lat : JSNum
deriving DecidableEq, Repr

/-- The response body fields read by `fetchIssPosition`; `none` models an
absent field. -/
structure Payload where
  latitude : Option JsonValue
  longitude : Option JsonValue
deriving DecidableEq, Repr

/-- Outcome of one `fetch` of the configured endpoint, as distinguished
by the code: a network rejection, a non-success HTTP status
(`!response.ok`, line 386), a body that fails `response.json()`, or a
parsed JSON body. -/
inductive FetchOutcome where
  | netError : FetchOutcome
  | httpError (status : ℕ) : FetchOutcome
  | badJson : FetchOutcome
  | ok (body : Payload) : FetchOutcome
deriving DecidableEq, Repr

/-- Connectivity status shown by the status indicator. -/
inductive ConnStatus where
  | connecting : ConnStatus
  | connected : ConnStatus
  | error : ConnStatus
deriving DecidableEq, Repr

/-- The state touched by one poll: the published position register
(`issCustomLayer.issPosition`), the status indicator, the ground-marker
GeoJSON source (`none` while the source has not been added to the map),
the info-panel position text, the follow flag with the last `easeTo`
target, and the number of `map.triggerRepaint()` calls. -/
structure FeedState where
  published : Option GeoPosition
  status : ConnStatus
  statusLabel : String
  markerSource : Option GeoPosition
  uiPosition : Option GeoPosition
  following : Bool
  easeTarget : Option GeoPosition
  repaints : ℕ
deriving DecidableEq, Repr

/-- State at script start: nothing published, indicator set to
`connecting` by `initializeUI`, marker source not yet added. -/
def initialFeedState : FeedState :=
  { published := none
    status := .connecting
    statusLabel := "Connecting..."
    markerSource := none
    uiPosition := none
    following := false
    easeTarget := none
    repaints := 0 }

/-- One execution of `fetchIssPosition` (src/main.js lines 383-437) for a
given fetch outcome.  Any throw (network error, `!response.ok`, JSON
failure, or the explicit `Invalid coordinates` throw when either parsed
coordinate is `NaN`) lands in the `catch` block, which sets the status
indicator to `error` and leaves everything else untouched.  On the
success path the position is published, the marker source (when present)
is moved, `easeTo` is issued when following, the UI is updated, the
status becomes `connected`, and a repaint is triggered. -/
def fetchIssPosition (s : FeedState) (o : FetchOutcome) : FeedState :=
  match o with
  | .netError => { s with status := .error, statusLabel := "Connection Error" }
  | .httpError _ => { s with status := .error, statusLabel := "Connection Error" }
  | .badJson => { s with status := .error, statusLabel := "Connection Error" }
  | .ok body =>
    let lng := parseFloatJson body.longitude
    let lat := parseFloatJson body.latitude
    if lng.isNaN || lat.isNaN then
      { s with status := .error, statusLabel := "Connection Error" }
    else
      let issPosition : GeoPosition := { lng := lng, lat := lat }
      { s with
        published := some issPosition
        markerSource := s.markerSource.map fun _ => issPosition
        easeTarget := if s.following then some issPosition else s.easeTarget
        uiPosition := some issPosition
        status := .connected
        statusLabel := "ISS Connected"
        repaints := s.repaints + 1 }

/-- Modelled from the spec: the spec admits payload coordinate values
that are "numeric or numeric-string"; a value is numeric when it is a
number, and a string is a numeric string when its whole content (up to
surrounding whitespace) is a decimal or Infinity literal.  Used only to
interpret the phrase "non-numeric value" in the claims, for comparison
with what the source's `parseFloat`-based check accepts. -/
def specIsNumericString (s : String) : Bool :=
  let cs := s.data.dropWhile isJsSpace
  let r := parseFloatCore cs
  !r.1.isNaN && (r.2.dropWhile isJsSpace).isEmpty

/-- Modelled from the spec: whether a payload field value counts as
"numeric or numeric-string" in the spec's sense. -/
def specIsNumericValue : Option JsonValue → Bool
  | some (.num n) => !n.isNaN
  | some (.str s) => specIsNumericString s
  | _ => false

/-- A Three.js `Matrix4`: sixteen entries in column-major order, as in
the library's `elements` array (entry `e(i + 4*j)` is row `i`, column `j`). -/
structure Matrix4 where
  e0 : ℚ
  e1 : ℚ
  e2 : ℚ
  e3 : ℚ
  e4 : ℚ
  e5 : ℚ
  e6 : ℚ
  e7 : ℚ
  e8 : ℚ
  e9 : ℚ
  e10 : ℚ
  e11 : ℚ
  e12 : ℚ
  e13 : ℚ
  e14 : ℚ
  e15 : ℚ
deriving DecidableEq, Repr

/-- `Matrix4.makeTranslation(x, y, z)`: identity with the translation in
the fourth column. -/
def Matrix4.makeTranslation (x y z : ℚ) : Matrix4 :=
  ⟨1, 0, 0, 0,
   0, 1, 0, 0,
   0, 0, 1, 0,
   x, y, z, 1⟩

/-- `Matrix4.makeScale(x, y, z)`: diagonal scale matrix. -/
def Matrix4.makeScale (x y z : ℚ) : Matrix4 :=
  ⟨x, 0, 0, 0,
   0, y, 0, 0,
   0, 0, z, 0,
   0, 0, 0, 1⟩

/-- Three.js `Matrix4.prototype.scale(v)`: scales the first three columns
of the matrix in place by the components of `v` (elements 0-3 by `x`,
4-7 by `y`, 8-11 by `z`), leaving the fourth column unchanged. -/
def Matrix4.scaleColumns (m : Matrix4) (x y z : ℚ) : Matrix4 :=
  ⟨m.e0 * x, m.e1 * x, m.e2 * x, m.e3 * x,
   m.e4 * y, m.e5 * y, m.e6 * y, m.e7 * y,
   m.e8 * z, m.e9 * z, m.e10 * z, m.e11 * z,
   m.e12, m.e13, m.e14, m.e15⟩

/-- Three.js `Matrix4.prototype.multiply(m)` via `multiplyMatrices`:
the matrix product `a * b` on column-major element arrays,
`(a*b).e(i+4j) = sum of a.e(i+4k) * b.e(k+4j) over k`. -/
def Matrix4.multiply (a b : Matrix4) : Matrix4 :=
  ⟨a.e0 * b.e0 + a.e4 * b.e1 + a.e8 * b.e2 + a.e12 * b.e3,
   a.e1 * b.e0 + a.e5 * b.e1 + a.e9 * b.e2 + a.e13 * b.e3,
   a.e2 * b.e0 + a.e6 * b.e1 + a.e10 * b.e2 + a.e14 * b.e3,
   a.e3 * b.e0 + a.e7 * b.e1 + a.e11 * b.e2 + a.e15 * b.e3,
   a.e0 * b.e4 + a.e4 * b.e5 + a.e8 * b.e6 + a.e12 * b.e7,
   a.e1 * b.e4 + a.e5 * b.e5 + a.e9 * b.e6 + a.e13 * b.e7,
   a.e2 * b.e4 + a.e6 * b.e5 + a.e10 * b.e6 + a.e14 * b.e7,
   a.e3 * b.e4 + a.e7 * b.e5 + a.e11 * b.e6 + a.e15 * b.e7,
   a.e0 * b.e8 + a.e4 * b.e9 + a.e8 * b.e10 + a.e12 * b.e11,
   a.e1 * b.e8 + a.e5 * b.e9 + a.e9 * b.e10 + a.e13 * b.e11,
   a.e2 * b.e8 + a.e6 * b.e9 + a.e10 * b.e10 + a.e14 * b.e11,
   a.e3 * b.e8 + a.e7 * b.e9 + a.e11 * b.e10 + a.e15 * b.e11,
   a.e0 * b.e12 + a.e4 * b.e13 + a.e8 * b.e14 + a.e12 * b.e15,
   a.e1 * b.e12 + a.e5 * b.e13 + a.e9 * b.e14 + a.e13 * b.e15,
   a.e2 * b.e12 + a.e6 * b.e13 + a.e10 * b.e14 + a.e14 * b.e15,
   a.e3 * b.e12 + a.e7 * b.e13 + a.e11 * b.e14 + a.e15 * b.e15⟩

/-- The identity matrix (used only to build concrete sample inputs). -/
def Matrix4.identity : Matrix4 :=
  ⟨1, 0, 0, 0,
   0, 1, 0, 0,
   0, 0, 1, 0,
   0, 0, 0, 1⟩

/-- Result of `mapboxgl.MercatorCoordinate.fromLngLat(position, altitude)`
as used by `render`: the mercator coordinates together with the value of
the `meterInMercatorCoordinateUnits()` method.  The entries are the real
numbers Mapbox computes; they are abstracted as exact values here. -/
structure MercatorCoordinate where
  x : ℚ
  y : ℚ
  z : ℚ
  meterInMercatorCoordinateUnits : ℚ
deriving DecidableEq, Repr

/-- The projection supplied by the host mapping library
(`mapboxgl.MercatorCoordinate.fromLngLat`).  It is an external pure
function of the position and the altitude; the render-layer claims hold
for every such function, so it is a parameter of the model. -/
def Projection : Type :=
  GeoPosition → ℚ → MercatorCoordinate

/-- The fixed altitude used for every projection
(`const altitude = 800000`, src/main.js line 286). -/
def issAltitude : ℚ :=
  800000

/-- The default position used when none has been published yet
(`this.issPosition || { lng: 0, lat: 0 }`, line 283). -/
def geoOrigin : GeoPosition :=
  { lng := .fin 0, lat := .fin 0 }

/-- The `modelTransform` record built in `render` (lines 293-298):
mercator translation, `z || 0`, and the meters-to-mercator scale. -/
structure ModelTransform where
  translateX : ℚ
  translateY : ℚ
  translateZ : ℚ
  scale : ℚ
deriving DecidableEq, Repr

/-- Lines 293-298 of src/main.js; `modelAsMercator.z || 0` is the
JavaScript or-default, returning `0` when `z` is falsy. -/
def mkModelTransform (m : MercatorCoordinate) : ModelTransform :=
  { translateX := m.x
    translateY := m.y
    translateZ := if m.z = 0 then 0 else m.z
    scale := m.meterInMercatorCoordinateUnits }

/-- The drawable installed as `this.issModel`: the GLB scene from the
loader's success callback, or the procedural group built by
`createISSModel` in the error callback. -/
inductive ModelKind where
  | primary : ModelKind
  | fallback : ModelKind
deriving DecidableEq, Repr

/-- The mutable fields of `issCustomLayer` touched by the loader
callbacks and by `render`: the model (absent while loading), the world
matrices and auto-update flags `render` assigns, the test cube, the
position register written by the poll loop, and the camera projection
matrix. -/
structure LayerState where
  issModel : Option ModelKind
  issModelMatrix : Option Matrix4
  issModelMatrixAutoUpdate : Bool
  testCube : Bool
  testCubeMatrix : Option Matrix4
  testCubeMatrixAutoUpdate : Bool
  issPosition : Option GeoPosition
  cameraProjectionMatrix : Option Matrix4
deriving DecidableEq, Repr

/-- Layer state right after `onAdd` (line 74): scene and test cube set
up, renderer created, model still loading, nothing published. -/
def initialLayerState : LayerState :=
  { issModel := none
    issModelMatrix := none
    issModelMatrixAutoUpdate := true
    testCube := true
    testCubeMatrix := none
    testCubeMatrixAutoUpdate := true
    issPosition := none
    cameraProjectionMatrix := none }

/-- The loader success callback (lines 101-177): installs the GLB scene
as `this.issModel`. -/
def onLoadSuccess (s : LayerState) : LayerState :=
  { s with issModel := some .primary }

/-- The loader error callback (lines 182-190): logs, builds the
procedural fallback with `createISSModel`, and installs it as
`this.issModel`.  The primary asset is never retried. -/
def onLoadError (s : LayerState) : LayerState :=
  { s with issModel := some .fallback }

/-- What one `render` call produces for the frame: which model was
drawn (`none` when the call skipped drawing), the world matrix assigned
to the model, the camera projection matrix, and whether
`map.triggerRepaint()` was called. -/
structure RenderResult where
  drawnModel : Option ModelKind
  modelWorldMatrix : Option Matrix4
  cameraProjMatrix : Option Matrix4
  repaintRequested : Bool
deriving DecidableEq, Repr

/-- The per-frame callback `render(gl, matrix)` (lines 274-346).  With no
model yet it returns at once (the occasional `console.log` is the only
effect, and it touches no state).  Otherwise it projects the published
position (or the origin default) at the fixed altitude, builds
`translation * columnScale(scale, -scale, scale)`, assigns
`cameraMatrix * modelMatrix` to the model (and test cube), disables
matrix auto-update, sets the camera projection from the host matrix,
resets the graphics state, draws, and requests a repaint.  The function
is total: no path throws. -/
def render (proj : Projection) (s : LayerState) (matrix : Matrix4) :
    LayerState × RenderResult :=
  match s.issModel with
  | none =>
    (s, { drawnModel := none, modelWorldMatrix := none,
          cameraProjMatrix := none, repaintRequested := false })
  | some k =>
    let position := s.issPosition.getD geoOrigin
    let modelAsMercator := proj position issAltitude
    let modelTransform := mkModelTransform modelAsMercator
    let modelMatrix :=
      (Matrix4.makeTranslation modelTransform.translateX modelTransform.translateY
          modelTransform.translateZ).scaleColumns
        modelTransform.scale (-modelTransform.scale) modelTransform.scale
    let finalMatrix := matrix.multiply modelMatrix
    ({ s with
        issModelMatrix := some finalMatrix
        issModelMatrixAutoUpdate := false
        testCubeMatrix := if s.testCube then some finalMatrix else s.testCubeMatrix
        testCubeMatrixAutoUpdate := if s.testCube then false else s.testCubeMatrixAutoUpdate
        cameraProjectionMatrix := some matrix },
     { drawnModel := some k, modelWorldMatrix := some finalMatrix,
       cameraProjMatrix := some matrix, repaintRequested := true })

/-- Events that can reach the layer after the loader has resolved: a
host frame callback, or the poll loop publishing a new position onto the
layer object (line 400). -/
inductive LayerEvent where
  | renderFrame (matrix : Matrix4) : LayerEvent
  | publish (p : GeoPosition) : LayerEvent
deriving DecidableEq, Repr

/-- Apply one layer event to the layer state. -/
def layerStep (proj : Projection) (s : LayerState) : LayerEvent → LayerState
  | .renderFrame matrix => (render proj s matrix).1
  | .publish p => { s with issPosition := some p }

/-- Run a sequence of layer events. -/
def layerRun (proj : Projection) (s : LayerState) (es : List LayerEvent) : LayerState :=
  es.foldl (layerStep proj) s

/-- What the startup section of the script does: the configuration check
of lines 17-19 only logs a diagnostic when the endpoint URL is falsy
(absent or empty), the script never halts, and lines 440-441 issue the
immediate fetch and start the 2000 ms interval unconditionally. -/
structure StartupResult where
  loggedMissingApiUrl : Bool
  halted : Bool
  immediateFetchIssued : Bool
  pollIntervalStarted : Bool
deriving DecidableEq, Repr

/-- JavaScript falsiness of an optional string (`!ISS_API_URL`):
`undefined` and the empty string are falsy. -/
def jsStrFalsy : Option String → Bool
  | none => true
  | some s => s.isEmpty

/-- Module evaluation of src/main.js restricted to the endpoint
configuration and the poll loop: log when `ISS_API_URL` is falsy
(lines 17-19), keep running, call `fetchIssPosition()` once (line 440)
and `setInterval(fetchIssPosition, 2000)` (line 441), both outside any
conditional. -/
def startup (apiUrl : Option String) : StartupResult :=
  { loggedMissingApiUrl := jsStrFalsy apiUrl
    halted := false
    immediateFetchIssued := true
    pollIntervalStarted := true }

/-- The time in milliseconds at which the n-th fetch is issued: the
call on line 440 runs at `t = 0`, and the interval of line 441 fires at
every multiple of 2000 ms thereafter.  The interval is never cleared and
no code consults past latencies or outcomes, so the schedule takes the
per-fetch latencies and outcomes as parameters only to record that it
does not depend on them. -/
def fetchIssueTime (latencyMs : ℕ → ℕ) (outcomes : ℕ → FetchOutcome) : ℕ → ℕ
  | 0 => 0
  | n + 1 => 2000 * (n + 1)

/-! ## Helper lemmas -/

/-- Three.js column scaling is right-multiplication by the diagonal
scale matrix. -/
theorem scaleColumns_eq_multiply_makeScale (m : Matrix4) (x y z : ℚ) :
    m.scaleColumns x y z = m.multiply (Matrix4.makeScale x y z) := by
  simp [Matrix4.scaleColumns, Matrix4.multiply, Matrix4.makeScale]

/-- No layer event replaces the installed model. -/
theorem layerStep_issModel (proj : Projection) (s : LayerState) (e : LayerEvent) :
    (layerStep proj s e).issModel = s.issModel := by
  cases e with
  | renderFrame matrix =>
    show (render proj s matrix).1.issModel = s.issModel
    cases h : s.issModel <;> simp [render, h]
  | publish p => rfl

/-- No sequence of layer events replaces the installed model. -/
theorem layerRun_issModel (proj : Projection) (s : LayerState) (es : List LayerEvent) :
    (layerRun proj s es).issModel = s.issModel := by
  induction es generalizing s with
  | nil => rfl
  | cons e es ih =>
    show (layerRun proj (layerStep proj s e) es).issModel = s.issModel
    rw [ih, layerStep_issModel]

/-- A render call with a model installed draws exactly that model. -/
theorem render_drawnModel (proj : Projection) (s : LayerState) (matrix : Matrix4)
    (k : ModelKind) (h : s.issModel = some k) :
    (render proj s matrix).2.drawnModel = some k := by
  simp [render, h]

/-- Evaluation of the parse of the string "51.6". -/
theorem parseFloat_51_6 : parseFloatJson (some (.str "51.6")) = .fin (51.6 : ℚ) := by
  show parseFloatString "51.6" = _
  rw [parseFloatString, parseFloatCore,
    show parseFloatParts ("51.6".data.dropWhile isJsSpace) = (.lit ⟨false, 51, 6, 1, 0⟩, [])
      from by decide]
  norm_num [ParseResult.toJSNum, DecLit.toRat]

/-- Evaluation of the parse of the string "-0.1". -/
theorem parseFloat_neg_0_1 : parseFloatJson (some (.str "-0.1")) = .fin (-0.1 : ℚ) := by
  show parseFloatString "-0.1" = _
  rw [parseFloatString, parseFloatCore,
    show parseFloatParts ("-0.1".data.dropWhile isJsSpace) = (.lit ⟨true, 0, 1, 1, 0⟩, [])
      from by decide]
  norm_num [ParseResult.toJSNum, DecLit.toRat]

/-- Evaluation of the parse of the string "999". -/
theorem parseFloat_999 : parseFloatJson (some (.str "999")) = .fin 999 := by
  show parseFloatString "999" = _
  rw [parseFloatString, parseFloatCore,
    show parseFloatParts ("999".data.dropWhile isJsSpace) = (.lit ⟨false, 999, 0, 0, 0⟩, [])
      from by decide]
  norm_num [ParseResult.toJSNum, DecLit.toRat]

/-- Evaluation of the parse of the string "0". -/
theorem parseFloat_0 : parseFloatJson (some (.str "0")) = .fin 0 := by
  show parseFloatString "0" = _
  rw [parseFloatString, parseFloatCore,
    show parseFloatParts ("0".data.dropWhile isJsSpace) = (.lit ⟨false, 0, 0, 0, 0⟩, [])
      from by decide]
  norm_num [ParseResult.toJSNum, DecLit.toRat]

/-- Evaluation of the parse of the string "Infinity". -/
theorem parseFloat_infinity : parseFloatJson (some (.str "Infinity")) = .inf false := by
  decide

/-- Evaluation of the parse of the string "12abc": the numeric prefix is
consumed and the trailing letters are ignored. -/
theorem parseFloat_12abc : parseFloatJson (some (.str "12abc")) = .fin 12 := by
  show parseFloatString "12abc" = _
  rw [parseFloatString, parseFloatCore,
    show parseFloatParts ("12abc".data.dropWhile isJsSpace)
        = (.lit ⟨false, 12, 0, 0, 0⟩, ['a', 'b', 'c']) from by decide]
  norm_num [ParseResult.toJSNum, DecLit.toRat]

/-! ## Claims -/

/-- **C1 (counterexample)** — The claim says every published position has
lat in [-90,90], lng in [-180,180], and both finite, with the feed
validating bounds and finiteness before publishing.  The code checks
only `isNaN`: the payload with latitude "999" publishes lat = 999, which
is out of bounds, and the payload with latitude "Infinity" publishes a
non-finite latitude. -/
theorem fetch_publishes_out_of_range :
    (fetchIssPosition initialFeedState
        (.ok { latitude := some (.str "999"), longitude := some (.str "0") })).published
      = some { lng := .fin 0, lat := .fin 999 } ∧
    ¬ ((999 : ℚ) ≤ 90) ∧
    (fetchIssPosition initialFeedState
        (.ok { latitude := some (.str "Infinity"), longitude := some (.str "0") })).published
      = some { lng := .fin 0, lat := .inf false } := by
  refine ⟨?_, by norm_num, ?_⟩
  · simp [fetchIssPosition, parseFloat_999, parseFloat_0, JSNum.isNaN]
  · simp [fetchIssPosition, parseFloat_infinity, parseFloat_0, JSNum.isNaN]

/-- **C1 (amended)** — The only validation the feed performs before the
atomic replace is that neither parsed coordinate is NaN: when either
parse yields NaN the published value is untouched and the status becomes
error, and otherwise the parsed pair is published as-is (including
out-of-range or infinite values) with status connected. -/
theorem fetch_validates_only_nan (s : FeedState) (body : Payload) :
    if (parseFloatJson body.longitude).isNaN || (parseFloatJson body.latitude).isNaN then
      (fetchIssPosition s (.ok body)).published = s.published ∧
      (fetchIssPosition s (.ok body)).status = .error
    else
      (fetchIssPosition s (.ok body)).published =
        some { lng := parseFloatJson body.longitude, lat := parseFloatJson body.latitude } ∧
      (fetchIssPosition s (.ok body)).status = .connected := by
  cases h : (parseFloatJson body.longitude).isNaN || (parseFloatJson body.latitude).isNaN <;>
    simp [fetchIssPosition, h]

/-- **C2 (counterexample)** — The claim says a payload carrying a
non-numeric value for latitude or longitude leaves the published
position unchanged and sets status to error.  The string "12abc" is not
numeric and not a numeric string, yet `parseFloat` consumes its numeric
prefix: the poll publishes lat = 12 (changing the register from `none`)
and sets status to connected. -/
theorem fetch_publishes_nonnumeric_prefix :
    specIsNumericValue (some (.str "12abc")) = false ∧
    (fetchIssPosition initialFeedState
        (.ok { latitude := some (.str "12abc"), longitude := some (.str "0") })).published
      = some { lng := .fin 0, lat := .fin 12 } ∧
    (fetchIssPosition initialFeedState
        (.ok { latitude := some (.str "12abc"), longitude := some (.str "0") })).published
      ≠ initialFeedState.published ∧
    (fetchIssPosition initialFeedState
        (.ok { latitude := some (.str "12abc"), longitude := some (.str "0") })).status
      = .connected := by
  have hp : (fetchIssPosition initialFeedState
      (.ok { latitude := some (.str "12abc"), longitude := some (.str "0") })).published
      = some { lng := .fin 0, lat := .fin 12 } := by
    simp [fetchIssPosition, parseFloat_12abc, parseFloat_0, JSNum.isNaN]
  refine ⟨by decide, hp, ?_, ?_⟩
  · rw [hp]; simp [initialFeedState]
  · simp [fetchIssPosition, parseFloat_12abc, parseFloat_0, JSNum.isNaN]

/-- **C2 (amended)** — For every poll whose payload is missing the
latitude or longitude field, or whose value for either parses to NaN
(no numeric prefix under `parseFloat`), the published position is
unchanged and the status becomes error.  (A non-numeric string that
starts with a numeric prefix, such as "12abc", is instead parsed by its
prefix and published.) -/
theorem fetch_missing_or_nan_unchanged (s : FeedState) (body : Payload)
    (h : body.latitude = none ∨ body.longitude = none ∨
         (parseFloatJson body.latitude).isNaN = true ∨
         (parseFloatJson body.longitude).isNaN = true) :
    (fetchIssPosition s (.ok body)).published = s.published ∧
    (fetchIssPosition s (.ok body)).status = .error := by
  have hb : ((parseFloatJson body.longitude).isNaN || (parseFloatJson body.latitude).isNaN)
      = true := by
    rcases h with h | h | h | h
    · simp [h, parseFloatJson, JSNum.isNaN]
    · simp [h, parseFloatJson, JSNum.isNaN]
    · simp [h]
    · simp [h]
  simp [fetchIssPosition, hb]

/-- **C2 (witness)** — a payload with the latitude field absent leaves
the initial state's published position untouched and sets the status to
error. -/
theorem fetch_missing_or_nan_unchanged_witness :
    (({ latitude := none, longitude := some (.str "0") } : Payload).latitude = none ∨
      ({ latitude := none, longitude := some (.str "0") } : Payload).longitude = none ∨
      (parseFloatJson ({ latitude := none, longitude := some (.str "0") } : Payload).latitude).isNaN
        = true ∨
      (parseFloatJson ({ latitude := none, longitude := some (.str "0") } : Payload).longitude).isNaN
        = true) ∧
    ((fetchIssPosition initialFeedState
        (.ok { latitude := none, longitude := some (.str "0") })).published
      = initialFeedState.published ∧
     (fetchIssPosition initialFeedState
        (.ok { latitude := none, longitude := some (.str "0") })).status = .error) :=
  ⟨Or.inl rfl,
   fetch_missing_or_nan_unchanged initialFeedState
     { latitude := none, longitude := some (.str "0") } (Or.inl rfl)⟩

/-- **C3** — For every payload whose latitude and longitude parse to
finite values within the valid ranges, the poll publishes the parsed
pair and sets the status to connected. -/
theorem fetch_publishes_parsed_values (s : FeedState) (body : Payload) (a b : ℚ)
    (hlat : parseFloatJson body.latitude = .fin a)
    (hlng : parseFloatJson body.longitude = .fin b)
    (hlat1 : -90 ≤ a) (hlat2 : a ≤ 90) (hlng1 : -180 ≤ b) (hlng2 : b ≤ 180) :
    (fetchIssPosition s (.ok body)).published = some { lng := .fin b, lat := .fin a } ∧
    (fetchIssPosition s (.ok body)).status = .connected := by
  simp [fetchIssPosition, hlat, hlng, JSNum.isNaN]

/-- **C3 (witness)** — the spec's own example: the payload
`{latitude: "51.6", longitude: "-0.1"}` publishes
`{lng: -0.1, lat: 51.6}` and sets the status to connected. -/
theorem fetch_publishes_parsed_values_witness :
    (parseFloatJson (some (.str "51.6")) = .fin (51.6 : ℚ) ∧
     parseFloatJson (some (.str "-0.1")) = .fin (-0.1 : ℚ) ∧
     (-90 : ℚ) ≤ 51.6 ∧ (51.6 : ℚ) ≤ 90 ∧ (-180 : ℚ) ≤ -0.1 ∧ (-0.1 : ℚ) ≤ 180) ∧
    ((fetchIssPosition initialFeedState
        (.ok { latitude := some (.str "51.6"), longitude := some (.str "-0.1") })).published
      = some { lng := .fin (-0.1 : ℚ), lat := .fin (51.6 : ℚ) } ∧
     (fetchIssPosition initialFeedState
        (.ok { latitude := some (.str "51.6"), longitude := some (.str "-0.1") })).status
      = .connected) :=
  ⟨⟨parseFloat_51_6, parseFloat_neg_0_1,
    by norm_num, by norm_num, by norm_num, by norm_num⟩,
   fetch_publishes_parsed_values initialFeedState
     { latitude := some (.str "51.6"), longitude := some (.str "-0.1") }
     (51.6 : ℚ) (-0.1 : ℚ) parseFloat_51_6 parseFloat_neg_0_1
     (by norm_num) (by norm_num) (by norm_num) (by norm_num)⟩

/-- **C4** — For every projection, camera matrix and layer state with a
model installed, the world matrix `render` assigns equals
`cameraMatrix * translate(project(position, altitude)) * scale(s, -s, s)`
with `s = project(position, altitude).scale`, the altitude fixed at
800000, and the vertical scale axis negated; `position` is the current
published position (origin before the first publish). -/
theorem render_world_matrix (proj : Projection) (s : LayerState) (matrix : Matrix4)
    (k : ModelKind) (h : s.issModel = some k) :
    issAltitude = 800000 ∧
    (render proj s matrix).2.modelWorldMatrix =
      some (matrix.multiply
        ((Matrix4.makeTranslation
            (mkModelTransform (proj (s.issPosition.getD geoOrigin) issAltitude)).translateX
            (mkModelTransform (proj (s.issPosition.getD geoOrigin) issAltitude)).translateY
            (mkModelTransform (proj (s.issPosition.getD geoOrigin) issAltitude)).translateZ).multiply
          (Matrix4.makeScale
            (mkModelTransform (proj (s.issPosition.getD geoOrigin) issAltitude)).scale
            (-(mkModelTransform (proj (s.issPosition.getD geoOrigin) issAltitude)).scale)
            (mkModelTransform (proj (s.issPosition.getD geoOrigin) issAltitude)).scale))) := by
  refine ⟨rfl, ?_⟩
  simp [render, h, scaleColumns_eq_multiply_makeScale]

/-- **C4 (witness)** — the identity camera matrix and a sample
projection value at the state right after the primary model loads. -/
theorem render_world_matrix_witness :
    ({ initialLayerState with issModel := some ModelKind.primary } : LayerState).issModel
      = some ModelKind.primary ∧
    (issAltitude = 800000 ∧
     (render (fun _ _ => { x := 1, y := 2, z := 3, meterInMercatorCoordinateUnits := 5 })
        { initialLayerState with issModel := some ModelKind.primary }
        Matrix4.identity).2.modelWorldMatrix =
      some (Matrix4.identity.multiply
        ((Matrix4.makeTranslation
            (mkModelTransform ((fun (_ : GeoPosition) (_ : ℚ) =>
                ({ x := 1, y := 2, z := 3, meterInMercatorCoordinateUnits := 5 }
                  : MercatorCoordinate))
              (({ initialLayerState with issModel := some ModelKind.primary }
                  : LayerState).issPosition.getD geoOrigin) issAltitude)).translateX
            (mkModelTransform ((fun (_ : GeoPosition) (_ : ℚ) =>
                ({ x := 1, y := 2, z := 3, meterInMercatorCoordinateUnits := 5 }
                  : MercatorCoordinate))
              (({ initialLayerState with issModel := some ModelKind.primary }
                  : LayerState).issPosition.getD geoOrigin) issAltitude)).translateY
            (mkModelTransform ((fun (_ : GeoPosition) (_ : ℚ) =>
                ({ x := 1, y := 2, z := 3, meterInMercatorCoordinateUnits := 5 }
                  : MercatorCoordinate))
              (({ initialLayerState with issModel := some ModelKind.primary }
                  : LayerState).issPosition.getD geoOrigin) issAltitude)).translateZ).multiply
          (Matrix4.makeScale
            (mkModelTransform ((fun (_ : GeoPosition) (_ : ℚ) =>
                ({ x := 1, y := 2, z := 3, meterInMercatorCoordinateUnits := 5 }
                  : MercatorCoordinate))
              (({ initialLayerState with issModel := some ModelKind.primary }
                  : LayerState).issPosition.getD geoOrigin) issAltitude)).scale
            (-(mkModelTransform ((fun (_ : GeoPosition) (_ : ℚ) =>
                ({ x := 1, y := 2, z := 3, meterInMercatorCoordinateUnits := 5 }
                  : MercatorCoordinate))
              (({ initialLayerState with issModel := some ModelKind.primary }
                  : LayerState).issPosition.getD geoOrigin) issAltitude)).scale)
            (mkModelTransform ((fun (_ : GeoPosition) (_ : ℚ) =>
                ({ x := 1, y := 2, z := 3, meterInMercatorCoordinateUnits := 5 }
                  : MercatorCoordinate))
              (({ initialLayerState with issModel := some ModelKind.primary }
                  : LayerState).issPosition.getD geoOrigin) issAltitude)).scale)))) :=
  ⟨rfl, render_world_matrix _ _ _ _ rfl⟩

/-- **C5 (counterexample)** — The claim says that with the endpoint
configuration absent a diagnostic is logged and the poll loop is
disabled.  The diagnostic is logged and the program continues, but the
immediate fetch and the 2000 ms interval are still issued: polls are not
disabled. -/
theorem startup_missing_url_still_polls :
    (startup none).loggedMissingApiUrl = true ∧
    (startup none).halted = false ∧
    (startup none).immediateFetchIssued = true ∧
    (startup none).pollIntervalStarted = true :=
  ⟨rfl, rfl, rfl, rfl⟩

/-- **C5 (amended)** — If the position-feed endpoint configuration is
absent (or empty) at startup, a diagnostic is logged and the program
continues running rather than halting, but the poll loop is not
disabled: the immediate fetch and the 2000 ms interval start
unconditionally. -/
theorem startup_logs_and_keeps_polling (apiUrl : Option String) :
    (startup apiUrl).loggedMissingApiUrl = jsStrFalsy apiUrl ∧
    (startup apiUrl).halted = false ∧
    (startup apiUrl).immediateFetchIssued = true ∧
    (startup apiUrl).pollIntervalStarted = true :=
  ⟨rfl, rfl, rfl, rfl⟩

/-- **C6** — If the primary asset load fails while the layer is still
loading, the fallback drawable is installed in that one step, the state
is terminal (no later render or publish event replaces it, and the
primary asset is never retried), and every subsequent render call draws
the fallback — `render` is a total function, so no call throws — and
completes the frame, requesting a repaint. -/
theorem load_error_fallback_terminal (proj : Projection) (s : LayerState)
    (h : s.issModel = none) (es : List LayerEvent) (matrix : Matrix4) :
    (onLoadError s).issModel = some .fallback ∧
    (layerRun proj (onLoadError s) es).issModel = some .fallback ∧
    (render proj (layerRun proj (onLoadError s) es) matrix).2.drawnModel = some .fallback ∧
    (render proj (layerRun proj (onLoadError s) es) matrix).2.repaintRequested = true := by
  have h1 : (onLoadError s).issModel = some .fallback := rfl
  have h2 : (layerRun proj (onLoadError s) es).issModel = some .fallback := by
    rw [layerRun_issModel]; exact h1
  exact ⟨h1, h2, render_drawnModel _ _ _ _ h2, by simp [render, h2]⟩

/-- **C6 (witness)** — the loader error callback fired on the freshly
added layer, followed by a publish and a frame. -/
theorem load_error_fallback_terminal_witness :
    initialLayerState.issModel = none ∧
    ((onLoadError initialLayerState).issModel = some .fallback ∧
     (layerRun (fun _ _ => { x := 1, y := 2, z := 3, meterInMercatorCoordinateUnits := 5 })
        (onLoadError initialLayerState)
        [.publish geoOrigin, .renderFrame Matrix4.identity]).issModel = some .fallback ∧
     (render (fun _ _ => { x := 1, y := 2, z := 3, meterInMercatorCoordinateUnits := 5 })
        (layerRun (fun _ _ => { x := 1, y := 2, z := 3, meterInMercatorCoordinateUnits := 5 })
          (onLoadError initialLayerState)
          [.publish geoOrigin, .renderFrame Matrix4.identity])
        Matrix4.identity).2.drawnModel = some .fallback ∧
     (render (fun _ _ => { x := 1, y := 2, z := 3, meterInMercatorCoordinateUnits := 5 })
        (layerRun (fun _ _ => { x := 1, y := 2, z := 3, meterInMercatorCoordinateUnits := 5 })
          (onLoadError initialLayerState)
          [.publish geoOrigin, .renderFrame Matrix4.identity])
        Matrix4.identity).2.repaintRequested = true) :=
  ⟨rfl, load_error_fallback_terminal _ initialLayerState rfl
    [.publish geoOrigin, .renderFrame Matrix4.identity] Matrix4.identity⟩

/-- **C7** — The n-th fetch is issued at exactly `2000 * n` ms: one
immediately at t = 0 and one every 2000 ms thereafter, for every n, with
the schedule the same for all per-fetch latencies and outcomes (no
backoff or jitter). -/
theorem fetch_cadence (latencyMs : ℕ → ℕ) (outcomes : ℕ → FetchOutcome) (n : ℕ) :
    fetchIssueTime latencyMs outcomes n = 2000 * n ∧
    fetchIssueTime latencyMs outcomes (n + 1) - fetchIssueTime latencyMs outcomes n = 2000 := by
  refine ⟨?_, ?_⟩
  · cases n with
    | zero => rfl
    | succ m => rfl
  · cases n with
    | zero => rfl
    | succ m =>
      show 2000 * (m + 1 + 1) - 2000 * (m + 1) = 2000
      omega

/-- **C8** — `render` is deterministic in the camera matrix and the
layer state it reads: a second call with the same camera matrix and no
intervening state change returns exactly the state and output of the
first call, so the model world matrix and the camera projection matrix
are bit-identical with no accumulated drift. -/
theorem render_deterministic (proj : Projection) (s : LayerState) (matrix : Matrix4) :
    render proj (render proj s matrix).1 matrix = render proj s matrix := by
  cases h : s.issModel <;> cases ht : s.testCube <;> simp [render, h, ht]

/-- **C9** — Whenever `render` runs before any model has been attached,
it returns with the layer state untouched (no model or camera matrix is
mutated), draws nothing, and does not request a repaint from the host. -/
theorem render_skips_without_model (proj : Projection) (s : LayerState) (matrix : Matrix4)
    (h : s.issModel = none) :
    render proj s matrix =
      (s, { drawnModel := none, modelWorldMatrix := none,
            cameraProjMatrix := none, repaintRequested := false }) := by
  simp [render, h]

/-- **C9 (witness)** — a frame arriving right after `onAdd`, before the
loader resolves. -/
theorem render_skips_without_model_witness :
    initialLayerState.issModel = none ∧
    render (fun _ _ => { x := 1, y := 2, z := 3, meterInMercatorCoordinateUnits := 5 })
        initialLayerState Matrix4.identity =
      (initialLayerState,
       { drawnModel := none, modelWorldMatrix := none,
         cameraProjMatrix := none, repaintRequested := false }) :=
  ⟨rfl, render_skips_without_model _ initialLayerState Matrix4.identity rfl⟩

/-- **C10** — A successful poll with the ground-marker source not yet
added publishes the parsed position, updates the UI, sets the status to
connected with its label, triggers a repaint, and leaves the (absent)
marker source untouched: the guard on the marker source does not abort
or alter the rest of the success path. -/
theorem fetch_success_without_marker (s : FeedState) (body : Payload)
    (hm : s.markerSource = none)
    (hlat : (parseFloatJson body.latitude).isNaN = false)
    (hlng : (parseFloatJson body.longitude).isNaN = false) :
    (fetchIssPosition s (.ok body)).published =
      some { lng := parseFloatJson body.longitude, lat := parseFloatJson body.latitude } ∧
    (fetchIssPosition s (.ok body)).status = .connected ∧
    (fetchIssPosition s (.ok body)).statusLabel = "ISS Connected" ∧
    (fetchIssPosition s (.ok body)).uiPosition =
      some { lng := parseFloatJson body.longitude, lat := parseFloatJson body.latitude } ∧
    (fetchIssPosition s (.ok body)).markerSource = none ∧
    (fetchIssPosition s (.ok body)).repaints = s.repaints + 1 := by
  simp [fetchIssPosition, hlat, hlng, hm]

/-- **C10 (witness)** — the initial state has no marker source; a valid
payload still completes the whole success path. -/
theorem fetch_success_without_marker_witness :
    (initialFeedState.markerSource = none ∧
     (parseFloatJson (some (.str "51.6"))).isNaN = false ∧
     (parseFloatJson (some (.str "-0.1"))).isNaN = false) ∧
    ((fetchIssPosition initialFeedState
        (.ok { latitude := some (.str "51.6"), longitude := some (.str "-0.1") })).published =
      some { lng := parseFloatJson (some (.str "-0.1")),
             lat := parseFloatJson (some (.str "51.6")) } ∧
     (fetchIssPosition initialFeedState
        (.ok { latitude := some (.str "51.6"), longitude := some (.str "-0.1") })).status
        = .connected ∧
     (fetchIssPosition initialFeedState
        (.ok { latitude := some (.str "51.6"), longitude := some (.str "-0.1") })).statusLabel
        = "ISS Connected" ∧
     (fetchIssPosition initialFeedState
        (.ok { latitude := some (.str "51.6"), longitude := some (.str "-0.1") })).uiPosition =
      some { lng := parseFloatJson (some (.str "-0.1")),
             lat := parseFloatJson (some (.str "51.6")) } ∧
     (fetchIssPosition initialFeedState
        (.ok { latitude := some (.str "51.6"), longitude := some (.str "-0.1") })).markerSource
        = none ∧
     (fetchIssPosition initialFeedState
        (.ok { latitude := some (.str "51.6"), longitude := some (.str "-0.1") })).repaints
        = initialFeedState.repaints + 1) :=
  ⟨⟨rfl, by decide, by decide⟩,
   fetch_success_without_marker initialFeedState
     { latitude := some (.str "51.6"), longitude := some (.str "-0.1") }
     rfl (by decide) (by decide)⟩
